import Mathlib

/-!
# Session operations of the command/event bridge (`session.go`)

A shallow embedding of `session.go`.  The file under study builds messages and
hands them to three collaborators that are declared elsewhere in the package:
the synchronous-call helper `synchronousEvent`, the writer (`s.w.write`) and the
addressable object's `On` (listener registration through the dispatcher).

Stateful code is written in explicit state-passing style:

* every interaction with a collaborator is appended to an ordered log
  (`Store.trace`), so "exactly once", "never" and "before" are statements about
  that log;
* what a collaborator answers (the helper's response and error, the writer's
  error) is supplied by an arbitrary `Env`, so every theorem holds for every
  possible behaviour of the collaborators;
* a Go variable captured by a closure lives in `Store.vars`, so an assignment
  made by the closure after the enclosing function has returned is modelled as
  what it is: a write to a cell nobody reads.

Pointers (`&cancel`, `&filter`, `&windowProxyOptions`) are `Option` values:
`none` is the nil pointer, `some v` a pointer to the value `v`.
-/

namespace Astilectron

/-- Go `error` values, identified by their message; a possibly-nil error is an
`Option Error`. -/
abbrev Error := String

/-! ## Event names (`session.go`, lines 8-31) -/

def EventNameSessionCmdClearCache : String := "session.cmd.clear.cache"
def EventNameSessionEventClearedCache : String := "session.event.cleared.cache"
def EventNameSessionCmdFlushStorage : String := "session.cmd.flush.storage"
def EventNameSessionEventFlushedStorage : String := "session.event.flushed.storage"
def EventNameSessionCmdLoadExtension : String := "session.cmd.load.extension"
def EventNameSessionEventLoadedExtension : String := "session.event.loaded.extension"
def EventNameSessionEventWillDownload : String := "session.event.will.download"
def EventNameSessionCmdSetCookies : String := "session.cmd.cookies.set"
def EventNameSessionEventSetCookies : String := "session.event.cookies.set"
def EventNameSessionCmdGetCookies : String := "session.cmd.cookies.get"
def EventNameSessionEventGetCookies : String := "session.event.cookies.get"
def EventNameSessionCmdFromPartition : String := "session.cmd.from.partition"
def EventNameSessionEventFromPartition : String := "session.event.from.partition"
def EventNameSessionCmdSetUserAgent : String := "session.cmd.set.user.agent"
def EventNameSessionEventSetUserAgent : String := "session.event.set.user.agent"
def EventNameSessionCmdCloseAllConnections : String := "session.cmd.close.all.connections"
def EventNameSessionEventCloseAllConnections : String := "session.event.close.all.connections"
def EventNameSessionCmdSetProxy : String := "session.cmd.set.proxy"
def EventNameSessionEventSetProxy : String := "session.event.set.proxy"
def EventNameSessionCmdWebRequestOnBeforeRequest : String :=
  "session.cmd.web.request.on.before.request"
def EventNameSessionEventWebRequestOnBeforeRequest : String :=
  "session.event.web.request.on.before.request"
def EventNameSessionEventWebRequestOnBeforeRequestCallback : String :=
  "session.event.web.request.on.before.request.callback"

/-! ## Data model -/

/-- The cookie payload of `session.go` (lines 100-111); the zero value of every
omitted field is its default. -/
structure SessionCookie where
  Url : String := ""
  Name : String := ""
  Value : String := ""
  Domain : String := ""
  Path : String := ""
  Secure : Option Bool := none
  HttpOnly : Option Bool := none
  Session : Option Bool := none
  ExpirationDate : Option Float := none
  SameSite : String := ""

/-- Modelled from the spec: the message type `Event` is declared outside
`session.go`.  It has `name`, `target_id` and `callback_id` (spec section 3) plus
the command-specific payload, of which exactly the fields that `session.go`
sets are kept.  The payload types `FilterOptions` and `WindowProxyOptions` are
declared outside `session.go` as well and stay abstract (type parameters).
A field left out of a composite literal has Go's zero value, here its default,
so `{}` is the zero `Event`. -/
structure Event (FilterOptions WindowProxyOptions : Type) where
  Name : String := ""
  TargetID : String := ""
  CallbackID : String := ""
  SessionID : String := ""
  Path : String := ""
  Partition : String := ""
  UserAgent : String := ""
  AcceptLanguages : String := ""
  RedirectURL : String := ""
  Cancel : Option Bool := none
  Filter : Option FilterOptions := none
  Proxy : Option WindowProxyOptions := none
  Cookies : List SessionCookie := []

/-- One interaction of the Session code with a collaborator, as it appears in
the source text: a call of `synchronousEvent`, a call of `s.w.write`, a call of
`s.On`, a call of the user callback `fn`. -/
inductive Effect (F P : Type) where
  | sync (out : Event F P) (expected : String)
  | write (e : Event F P)
  | on (eventName : String)
  | fn (i : Event F P)

/-- The message an interaction hands to the helper or to the writer, if any. -/
def Effect.outboundMessage {F P : Type} : Effect F P → Option (Event F P)
  | .sync out _ => some out
  | .write e => some e
  | .on _ => none
  | .fn _ => none

/-- Every outbound message of a log, oldest first. -/
def outbound {F P : Type} (t : List (Effect F P)) : List (Event F P) :=
  t.filterMap Effect.outboundMessage

/-- The messages handed to the writer (its output), oldest first. -/
def written {F P : Type} (t : List (Effect F P)) : List (Event F P) :=
  t.filterMap fun
    | .write e => some e
    | _ => none

/-- The helper invocations of a log: outbound message and expected event name. -/
def helperCalls {F P : Type} (t : List (Effect F P)) : List (Event F P × String) :=
  t.filterMap fun
    | .sync out expected => some (out, expected)
    | _ => none

/-- The arguments the user callback received, oldest first. -/
def fnArgs {F P : Type} (t : List (Effect F P)) : List (Event F P) :=
  t.filterMap fun
    | .fn i => some i
    | _ => none

/-- The part of `after` that was appended to a log of length `before`. -/
def appended {F P : Type} (before after : List (Effect F P)) : List (Effect F P) :=
  after.drop before.length

/-- The lifecycle token: `Err` is what `ctx.Err()` returns, `none` while the
context is live and the cancellation error once it is cancelled. -/
structure Context where
  Err : Option Error

/-- Modelled from the spec: the addressable object (declared outside
`session.go`) holds an identifier and a cancellable lifecycle token; its
references to the dispatcher and the writer point to shared state, which is
threaded separately (`World`). -/
structure object where
  ctx : Context
  id : String

/-- Session, `session.go` lines 37-40: the embedded object and the public `ID`. -/
structure Session extends object where
  ID : String

/-- State that code on the dispatch path can reach: the interaction log and the
cells of variables captured by closures. -/
structure Store (F P : Type) where
  trace : List (Effect F P) := []
  vars : List (Option Error) := []

/-- Go's `Listener`: receives the inbound event, may act on the store, and
tells the dispatcher whether to delete it. -/
abbrev Listener (F P : Type) := Event F P → Store F P → Bool × Store F P

/-- The store together with the dispatcher's registry: `(event name, handler)`
pairs in registration order (spec section 3, "Dispatcher registry"). -/
structure World (F P : Type) where
  store : Store F P := {}
  listeners : List (String × Listener F P) := []

/-- Modelled from the spec: what the collaborators declared outside
`session.go` answer.  `synchronousEvent` is the contract
`Call(ctx, writer, outboundMessage, expectedEventName) -> (responseMessage, error)`
of spec section 4.5 and `write` the contract `Write(message) -> error` of
section 4.3; both may depend on everything that happened before (the log).
Nothing is assumed about either. -/
structure Env (F P : Type) where
  synchronousEvent :
    List (Effect F P) → Context → object → Event F P → String → Event F P × Option Error
  write : List (Effect F P) → Event F P → Option Error

section Operations

variable {F P : Type}

/-- The call `w.write(e)`: the attempt is logged and the writer's answer
returned. -/
def writerWrite (env : Env F P) (e : Event F P) (m : Store F P) : Option Error × Store F P :=
  (env.write m.trace e, { m with trace := m.trace ++ [Effect.write e] })

/-- The call `synchronousEvent(ctx, o, w, e, expected)`: the invocation is
logged and the helper's answer returned.  What the helper does internally is
not part of `session.go`. -/
def synchronousEvent (env : Env F P) (ctx : Context) (o : object) (e : Event F P)
    (expected : String) (x : World F P) : (Event F P × Option Error) × World F P :=
  (env.synchronousEvent x.store.trace ctx o e expected,
    { x with store := { x.store with trace := x.store.trace ++ [Effect.sync e expected] } })

/-- Modelled from the spec: `On(eventName, handler)` of the addressable object
(declared outside `session.go`) registers a persistent listener through the
dispatcher, at the end of the registry. -/
def object.On (_o : object) (eventName : String) (l : Listener F P) (x : World F P) :
    World F P :=
  { store := { x.store with trace := x.store.trace ++ [Effect.on eventName] },
    listeners := x.listeners ++ [(eventName, l)] }

/-- Modelled from the spec: the identifier generator (declared outside
`session.go`).  `gen k` is the identifier returned by the `k`-th call and `n`
counts the calls made so far; nothing is assumed about `gen`. -/
structure identifier where
  gen : Nat → String
  n : Nat

/-- The call `i.new()`. -/
def identifier.new (i : identifier) : String × identifier :=
  (i.gen i.n, { i with n := i.n + 1 })

/-- Modelled from the spec: `newObject(ctx, d, i, w, id)` (declared outside
`session.go`) builds the addressable object holding the identifier `id` and a
lifecycle token derived from `ctx`. -/
def newObject (ctx : Context) (id : String) : object :=
  { ctx := ctx, id := id }

/-- The function `newSession`, lines 43-50; returns the session and the
generator after the call. -/
def newSession (ctx : Context) (i : identifier) : Session × identifier :=
  let r := i.new
  let id := r.1
  let s : Session := { toobject := newObject ctx id, ID := "" }
  let s := { s with ID := id }
  (s, r.2)

/-- ClearCache, lines 53-59. -/
def Session.ClearCache (env : Env F P) (s : Session) (x : World F P) :
    Option Error × World F P :=
  match s.ctx.Err with
  | some err => (some err, x)
  | none =>
    let r := synchronousEvent env s.ctx s.toobject
      { Name := EventNameSessionCmdClearCache, TargetID := s.id }
      EventNameSessionEventClearedCache x
    (r.1.2, r.2)

/-- FlushStorage, lines 62-68. -/
def Session.FlushStorage (env : Env F P) (s : Session) (x : World F P) :
    Option Error × World F P :=
  match s.ctx.Err with
  | some err => (some err, x)
  | none =>
    let r := synchronousEvent env s.ctx s.toobject
      { Name := EventNameSessionCmdFlushStorage, TargetID := s.id }
      EventNameSessionEventFlushedStorage x
    (r.1.2, r.2)

/-- LoadExtension, lines 71-77. -/
def Session.LoadExtension (env : Env F P) (s : Session) (path : String) (x : World F P) :
    Option Error × World F P :=
  match s.ctx.Err with
  | some err => (some err, x)
  | none =>
    let r := synchronousEvent env s.ctx s.toobject
      { Name := EventNameSessionCmdLoadExtension, Path := path, TargetID := s.id }
      EventNameSessionEventLoadedExtension x
    (r.1.2, r.2)

/-- The closure that OnBeforeRequest registers, lines 81-90.  `c` is the cell
of the captured variable `err` (the named result of the enclosing call). -/
def Session.onBeforeRequestListener (env : Env F P) (s : Session)
    (fn : Event F P → Bool × String × Bool) (c : Nat) : Listener F P :=
  fun i m =>
    -- cancel, redirectUrl, deleteListener := fn(i)
    let r := fn i
    let cancel := r.1
    let redirectUrl := r.2.1
    let deleteListener := r.2.2
    let m := { m with trace := m.trace ++ [Effect.fn i] }
    -- err = s.w.write(...)
    let w := writerWrite env
      { CallbackID := i.CallbackID,
        Name := EventNameSessionEventWebRequestOnBeforeRequestCallback,
        TargetID := s.id, Cancel := some cancel, RedirectURL := redirectUrl } m
    let m := { w.2 with vars := w.2.vars.set c w.1 }
    -- if err != nil { return }; return
    match m.vars.getD c none with
    | some _ => (deleteListener, m)
    | none => (deleteListener, m)

/-- OnBeforeRequest, lines 79-98.  The named result `err` is a fresh variable
(initially nil) that the closure captures; `return` yields its current value. -/
def Session.OnBeforeRequest (env : Env F P) (s : Session) (filter : F)
    (fn : Event F P → Bool × String × Bool) (x : World F P) : Option Error × World F P :=
  let c := x.store.vars.length
  let x := { x with store := { x.store with vars := x.store.vars ++ [none] } }
  let x := s.toobject.On EventNameSessionEventWebRequestOnBeforeRequest
    (s.onBeforeRequestListener env fn c) x
  -- if err = s.ctx.Err(); err != nil { return }
  let x := { x with store := { x.store with vars := x.store.vars.set c s.ctx.Err } }
  match x.store.vars.getD c none with
  | some _ => (x.store.vars.getD c none, x)
  | none =>
    -- s.w.write(...): the returned error is dropped
    let w := writerWrite env
      { Name := EventNameSessionCmdWebRequestOnBeforeRequest, TargetID := s.id,
        Filter := some filter } x.store
    let x := { x with store := w.2 }
    (x.store.vars.getD c none, x)

/-- SetCookies, lines 113-119. -/
def Session.SetCookies (env : Env F P) (s : Session) (cookies : List SessionCookie)
    (x : World F P) : Option Error × World F P :=
  match s.ctx.Err with
  | some err => (some err, x)
  | none =>
    let r := synchronousEvent env s.ctx s.toobject
      { Name := EventNameSessionCmdSetCookies, TargetID := s.id, Cookies := cookies }
      EventNameSessionEventSetCookies x
    (r.1.2, r.2)

/-- GetCookies, lines 121-127: returns the event and the error. -/
def Session.GetCookies (env : Env F P) (s : Session) (x : World F P) :
    (Event F P × Option Error) × World F P :=
  match s.ctx.Err with
  | some err => (({}, some err), x)
  | none =>
    let r := synchronousEvent env s.ctx s.toobject
      { Name := EventNameSessionCmdGetCookies, TargetID := s.id }
      EventNameSessionEventGetCookies x
    ((r.1.1, r.1.2), r.2)

/-- FromPartition, lines 129-136. -/
def Session.FromPartition (env : Env F P) (s : Session) (partition : String)
    (x : World F P) : Option Error × World F P :=
  match s.ctx.Err with
  | some err => (some err, x)
  | none =>
    let r := synchronousEvent env s.ctx s.toobject
      { Name := EventNameSessionCmdFromPartition, SessionID := s.id, Partition := partition }
      EventNameSessionEventFromPartition x
    (r.1.2, r.2)

/-- SetUserAgent, lines 138-145. -/
def Session.SetUserAgent (env : Env F P) (s : Session) (userAgent : String)
    (acceptLanguages : String) (x : World F P) : Option Error × World F P :=
  match s.ctx.Err with
  | some err => (some err, x)
  | none =>
    let r := synchronousEvent env s.ctx s.toobject
      { Name := EventNameSessionCmdSetUserAgent, TargetID := s.id, UserAgent := userAgent,
        AcceptLanguages := acceptLanguages }
      EventNameSessionEventSetUserAgent x
    (r.1.2, r.2)

/-- CloseAllConnections, lines 147-154. -/
def Session.CloseAllConnections (env : Env F P) (s : Session) (x : World F P) :
    Option Error × World F P :=
  match s.ctx.Err with
  | some err => (some err, x)
  | none =>
    let r := synchronousEvent env s.ctx s.toobject
      { Name := EventNameSessionCmdCloseAllConnections, TargetID := s.id }
      EventNameSessionEventCloseAllConnections x
    (r.1.2, r.2)

/-- SetProxy, lines 156-163. -/
def Session.SetProxy (env : Env F P) (s : Session) (windowProxyOptions : P)
    (x : World F P) : Option Error × World F P :=
  match s.ctx.Err with
  | some err => (some err, x)
  | none =>
    let r := synchronousEvent env s.ctx s.toobject
      { Name := EventNameSessionCmdSetProxy, TargetID := s.id,
        Proxy := some windowProxyOptions }
      EventNameSessionEventSetProxy x
    (r.1.2, r.2)

/-! ## The nine synchronous operations as one family -/

/-- The nine synchronous Session operations, each with its arguments. -/
inductive SyncOp (P : Type) where
  | ClearCache
  | FlushStorage
  | LoadExtension (path : String)
  | SetCookies (cookies : List SessionCookie)
  | GetCookies
  | FromPartition (partition : String)
  | SetUserAgent (userAgent acceptLanguages : String)
  | CloseAllConnections
  | SetProxy (windowProxyOptions : P)

/-- Runs one of the nine operations on a session.  The result is the event the
operation returns (`some` for GetCookies, the only one that returns an event),
the error it returns, and the world afterwards. -/
def SyncOp.run (env : Env F P) (s : Session) :
    SyncOp P → World F P → (Option (Event F P) × Option Error) × World F P
  | .ClearCache, x => let r := s.ClearCache env x; ((none, r.1), r.2)
  | .FlushStorage, x => let r := s.FlushStorage env x; ((none, r.1), r.2)
  | .LoadExtension path, x => let r := s.LoadExtension env path x; ((none, r.1), r.2)
  | .SetCookies cookies, x => let r := s.SetCookies env cookies x; ((none, r.1), r.2)
  | .GetCookies, x => let r := s.GetCookies env x; ((some r.1.1, r.1.2), r.2)
  | .FromPartition partition, x => let r := s.FromPartition env partition x; ((none, r.1), r.2)
  | .SetUserAgent ua al, x => let r := s.SetUserAgent env ua al x; ((none, r.1), r.2)
  | .CloseAllConnections, x => let r := s.CloseAllConnections env x; ((none, r.1), r.2)
  | .SetProxy opts, x => let r := s.SetProxy env opts x; ((none, r.1), r.2)

/-- The pairing of command name and expected response event name as the
specification lists it (written from the specification, not from the code). -/
def SyncOp.specNames : SyncOp P → String × String
  | .ClearCache => ("session.cmd.clear.cache", "session.event.cleared.cache")
  | .FlushStorage => ("session.cmd.flush.storage", "session.event.flushed.storage")
  | .LoadExtension _ => ("session.cmd.load.extension", "session.event.loaded.extension")
  | .SetCookies _ => ("session.cmd.cookies.set", "session.event.cookies.set")
  | .GetCookies => ("session.cmd.cookies.get", "session.event.cookies.get")
  | .FromPartition _ => ("session.cmd.from.partition", "session.event.from.partition")
  | .SetUserAgent _ _ => ("session.cmd.set.user.agent", "session.event.set.user.agent")
  | .CloseAllConnections =>
    ("session.cmd.close.all.connections", "session.event.close.all.connections")
  | .SetProxy _ => ("session.cmd.set.proxy", "session.event.set.proxy")

/-- Whether the operation is FromPartition. -/
def SyncOp.isFromPartition : SyncOp P → Bool
  | .FromPartition _ => true
  | _ => false

end Operations

/-- Successive `newSession` calls on one generator, one per context of the
list; returns the sessions in creation order and the generator afterwards. -/
def newSessions : List Context → identifier → List Session × identifier
  | [], i => ([], i)
  | ctx :: rest, i =>
    let r := newSession ctx i
    let k := newSessions rest r.2
    (r.1 :: k.1, k.2)

/-! ## Concrete inputs -/

/-- Collaborators that always succeed: the helper answers with an event named
`reply`, the writer never fails. -/
def healthyEnv : Env Unit Unit :=
  { synchronousEvent := fun _ _ _ _ _ => ({ Name := "reply" }, none),
    write := fun _ _ => none }

/-- Collaborators whose writer fails on every message. -/
def brokenPipeEnv : Env Unit Unit :=
  { synchronousEvent := fun _ _ _ _ _ => ({ Name := "reply" }, none),
    write := fun _ _ => some "broken pipe" }

/-- Collaborators whose writer transmits every command but fails on the
callback reply of the request interception. -/
def replyFailsEnv : Env Unit Unit :=
  { synchronousEvent := fun _ _ _ _ _ => ({ Name := "reply" }, none),
    write := fun _ e =>
      if e.Name = "session.event.web.request.on.before.request.callback" then
        some "broken pipe"
      else none }

/-- A session with identifier `1` whose context is live. -/
def liveSession : Session :=
  { ctx := { Err := none }, id := "1", ID := "1" }

/-- A session with identifier `1` whose context is cancelled. -/
def cancelledSession : Session :=
  { ctx := { Err := some "context canceled" }, id := "1", ID := "1" }

/-- A user callback: cancel the request, no redirect, keep the listener. -/
def cancelAll : Event Unit Unit → Bool × String × Bool :=
  fun _ => (true, "", false)

/-- An inbound request event with callback identifier `7`. -/
def requestEvent : Event Unit Unit :=
  { Name := EventNameSessionEventWebRequestOnBeforeRequest, TargetID := "1",
    CallbackID := "7" }

/-- The world before anything happened. -/
def emptyWorld : World Unit Unit := {}

/-- A generator handing out `a`, `aa`, `aaa`, ... -/
def unaryIdentifier : identifier :=
  { gen := fun k => String.mk (List.replicate (k + 1) 'a'), n := 0 }

/-! ## Theorems -/

section Theorems

variable {F P : Type}

/-! ### Shared lemmas -/

theorem appended_append (t u : List (Effect F P)) : appended t (t ++ u) = u := by
  simp [appended]

theorem appended_self (t : List (Effect F P)) : appended t t = [] := by
  simp [appended]

/-- A cancelled context: the operation returns the context error and the world
is the one it started from. -/
theorem syncOp_cancelled (env : Env F P) (s : Session) (x : World F P) (op : SyncOp P)
    (err : Error) (h : s.ctx.Err = some err) :
    (op.run env s x).1.2 = some err ∧ (op.run env s x).2 = x := by
  cases op <;> simp [SyncOp.run, Session.ClearCache, Session.FlushStorage,
    Session.LoadExtension, Session.SetCookies, Session.GetCookies, Session.FromPartition,
    Session.SetUserAgent, Session.CloseAllConnections, Session.SetProxy, h]

/-- A live context: the operation is one helper call; the message it builds and
what it returns. -/
theorem syncOp_live (env : Env F P) (s : Session) (x : World F P) (op : SyncOp P)
    (h : s.ctx.Err = none) :
    ∃ m : Event F P,
      m.Name = (SyncOp.specNames op).1 ∧
      (op.run env s x).2 =
        { x with store := { x.store with
            trace := x.store.trace ++ [Effect.sync m (SyncOp.specNames op).2] } } ∧
      (op.run env s x).1.2
        = (env.synchronousEvent x.store.trace s.ctx s.toobject m (SyncOp.specNames op).2).2 ∧
      (op.isFromPartition = false → m.TargetID = s.id) ∧
      (op.isFromPartition = true → m.SessionID = s.id ∧ m.TargetID = "") := by
  cases op with
  | ClearCache =>
    refine ⟨{ Name := "session.cmd.clear.cache", TargetID := s.id }, rfl, ?_, ?_, ?_, ?_⟩
      <;> simp [SyncOp.run, SyncOp.specNames, Session.ClearCache, h, synchronousEvent,
        EventNameSessionCmdClearCache, EventNameSessionEventClearedCache,
        SyncOp.isFromPartition]
  | FlushStorage =>
    refine ⟨{ Name := "session.cmd.flush.storage", TargetID := s.id }, rfl, ?_, ?_, ?_, ?_⟩
      <;> simp [SyncOp.run, SyncOp.specNames, Session.FlushStorage, h, synchronousEvent,
        EventNameSessionCmdFlushStorage, EventNameSessionEventFlushedStorage,
        SyncOp.isFromPartition]
  | LoadExtension path =>
    refine ⟨{ Name := "session.cmd.load.extension", Path := path, TargetID := s.id },
      rfl, ?_, ?_, ?_, ?_⟩
      <;> simp [SyncOp.run, SyncOp.specNames, Session.LoadExtension, h, synchronousEvent,
        EventNameSessionCmdLoadExtension, EventNameSessionEventLoadedExtension,
        SyncOp.isFromPartition]
  | SetCookies cookies =>
    refine ⟨{ Name := "session.cmd.cookies.set", TargetID := s.id, Cookies := cookies },
      rfl, ?_, ?_, ?_, ?_⟩
      <;> simp [SyncOp.run, SyncOp.specNames, Session.SetCookies, h, synchronousEvent,
        EventNameSessionCmdSetCookies, EventNameSessionEventSetCookies,
        SyncOp.isFromPartition]
  | GetCookies =>
    refine ⟨{ Name := "session.cmd.cookies.get", TargetID := s.id }, rfl, ?_, ?_, ?_, ?_⟩
      <;> simp [SyncOp.run, SyncOp.specNames, Session.GetCookies, h, synchronousEvent,
        EventNameSessionCmdGetCookies, EventNameSessionEventGetCookies,
        SyncOp.isFromPartition]
  | FromPartition partition =>
    refine ⟨{ Name := "session.cmd.from.partition", SessionID := s.id,
              Partition := partition }, rfl, ?_, ?_, ?_, ?_⟩
      <;> simp [SyncOp.run, SyncOp.specNames, Session.FromPartition, h, synchronousEvent,
        EventNameSessionCmdFromPartition, EventNameSessionEventFromPartition,
        SyncOp.isFromPartition]
  | SetUserAgent ua al =>
    refine ⟨{ Name := "session.cmd.set.user.agent", TargetID := s.id, UserAgent := ua,
              AcceptLanguages := al }, rfl, ?_, ?_, ?_, ?_⟩
      <;> simp [SyncOp.run, SyncOp.specNames, Session.SetUserAgent, h, synchronousEvent,
        EventNameSessionCmdSetUserAgent, EventNameSessionEventSetUserAgent,
        SyncOp.isFromPartition]
  | CloseAllConnections =>
    refine ⟨{ Name := "session.cmd.close.all.connections", TargetID := s.id },
      rfl, ?_, ?_, ?_, ?_⟩
      <;> simp [SyncOp.run, SyncOp.specNames, Session.CloseAllConnections, h,
        synchronousEvent, EventNameSessionCmdCloseAllConnections,
        EventNameSessionEventCloseAllConnections, SyncOp.isFromPartition]
  | SetProxy opts =>
    refine ⟨{ Name := "session.cmd.set.proxy", TargetID := s.id, Proxy := some opts },
      rfl, ?_, ?_, ?_, ?_⟩
      <;> simp [SyncOp.run, SyncOp.specNames, Session.SetProxy, h, synchronousEvent,
        EventNameSessionCmdSetProxy, EventNameSessionEventSetProxy,
        SyncOp.isFromPartition]

theorem set_fresh_cell (l : List (Option Error)) (v : Option Error) :
    (l ++ [none]).set l.length v = l ++ [v] := by
  induction l with
  | nil => rfl
  | cons a t ih => simp [List.set, ih]

theorem getD_fresh_cell (l : List (Option Error)) (v : Option Error) :
    (l ++ [v]).getD l.length none = v := by
  induction l with
  | nil => rfl
  | cons a t ih => simp [List.getD]

/-- The listener of OnBeforeRequest, unfolded: one call of `fn`, then one write
of the reply; the writer's answer goes to the captured cell `c`. -/
theorem onBeforeRequestListener_eq (env : Env F P) (s : Session)
    (fn : Event F P → Bool × String × Bool) (c : Nat) (i : Event F P) (m : Store F P) :
    s.onBeforeRequestListener env fn c i m =
      ((fn i).2.2,
        { trace := m.trace ++ [Effect.fn i, Effect.write
            { CallbackID := i.CallbackID,
              Name := "session.event.web.request.on.before.request.callback",
              TargetID := s.id, Cancel := some (fn i).1, RedirectURL := (fn i).2.1 }],
          vars := m.vars.set c (env.write (m.trace ++ [Effect.fn i])
            { CallbackID := i.CallbackID,
              Name := "session.event.web.request.on.before.request.callback",
              TargetID := s.id, Cancel := some (fn i).1, RedirectURL := (fn i).2.1 }) }) := by
  simp only [Session.onBeforeRequestListener, writerWrite,
    EventNameSessionEventWebRequestOnBeforeRequestCallback]
  split <;> simp

/-- OnBeforeRequest on a cancelled context, unfolded. -/
theorem OnBeforeRequest_cancelled (env : Env F P) (s : Session) (filter : F)
    (fn : Event F P → Bool × String × Bool) (x : World F P) (err : Error)
    (h : s.ctx.Err = some err) :
    s.OnBeforeRequest env filter fn x =
      (some err,
        { store :=
            { trace := x.store.trace ++ [Effect.on "session.event.web.request.on.before.request"],
              vars := x.store.vars ++ [some err] },
          listeners := x.listeners ++
            [("session.event.web.request.on.before.request",
              s.onBeforeRequestListener env fn x.store.vars.length)] }) := by
  simp [Session.OnBeforeRequest, object.On, h, set_fresh_cell, getD_fresh_cell,
    EventNameSessionEventWebRequestOnBeforeRequest]

/-- OnBeforeRequest on a live context, unfolded. -/
theorem OnBeforeRequest_live (env : Env F P) (s : Session) (filter : F)
    (fn : Event F P → Bool × String × Bool) (x : World F P) (h : s.ctx.Err = none) :
    s.OnBeforeRequest env filter fn x =
      (none,
        { store :=
            { trace := x.store.trace ++
                [Effect.on "session.event.web.request.on.before.request",
                 Effect.write { Name := "session.cmd.web.request.on.before.request",
                                TargetID := s.id, Filter := some filter }],
              vars := x.store.vars ++ [none] },
          listeners := x.listeners ++
            [("session.event.web.request.on.before.request",
              s.onBeforeRequestListener env fn x.store.vars.length)] }) := by
  simp [Session.OnBeforeRequest, object.On, h, set_fresh_cell, getD_fresh_cell, writerWrite,
    EventNameSessionEventWebRequestOnBeforeRequest,
    EventNameSessionCmdWebRequestOnBeforeRequest]

/-- Whatever the context, OnBeforeRequest adds one entry to the registry: its
closure, under the request event name. -/
theorem OnBeforeRequest_listeners (env : Env F P) (s : Session) (filter : F)
    (fn : Event F P → Bool × String × Bool) (x : World F P) :
    (s.OnBeforeRequest env filter fn x).2.listeners =
      x.listeners ++ [("session.event.web.request.on.before.request",
        s.onBeforeRequestListener env fn x.store.vars.length)] := by
  cases h : s.ctx.Err with
  | none => rw [OnBeforeRequest_live env s filter fn x h]
  | some err => rw [OnBeforeRequest_cancelled env s filter fn x err h]

/-- The generator itself is never replaced by `newSession`; only its call
count moves, by one. -/
theorem newSession_generator (ctx : Context) (i : identifier) :
    (newSession ctx i).2 = { i with n := i.n + 1 } ∧ (newSession ctx i).1.ID = i.gen i.n := by
  simp [newSession, identifier.new]

/-- The identifiers of successively created sessions are the generator's
successive results. -/
theorem newSessions_ids (ctxs : List Context) (i : identifier) :
    (newSessions ctxs i).1.map Session.ID = (List.range' i.n ctxs.length).map i.gen := by
  induction ctxs generalizing i with
  | nil => rfl
  | cons ctx rest ih =>
    simp only [newSessions, List.map_cons, List.length_cons, List.range'_succ]
    rw [ih, (newSession_generator ctx i).1, (newSession_generator ctx i).2]

theorem outbound_sync (m : Event F P) (expected : String) :
    outbound [Effect.sync m expected] = [m] := rfl

theorem unaryIdentifier_injective : Function.Injective unaryIdentifier.gen := by
  intro a b hab
  have hlen := congrArg String.length hab
  simpa [unaryIdentifier, String.length] using hlen

/-! ### The claims -/

/-- Claim C1. If the session's context is already cancelled when one of the
nine synchronous operations is invoked (whatever its arguments), the operation
returns exactly the context's error and leaves the world untouched: the helper
is not invoked, nothing is written and no listener is registered.  GetCookies
moreover returns the zero Event. -/
theorem cancelled_sync_op_fails_fast (env : Env F P) (s : Session) (x : World F P)
    (op : SyncOp P) (err : Error) (h : s.ctx.Err = some err) :
    (op.run env s x).1.2 = some err ∧
    (op.run env s x).2 = x ∧
    helperCalls (appended x.store.trace (op.run env s x).2.store.trace) = [] ∧
    written (appended x.store.trace (op.run env s x).2.store.trace) = [] ∧
    (op.run env s x).2.listeners = x.listeners ∧
    s.GetCookies env x = (({}, some err), x) := by
  obtain ⟨he, hw⟩ := syncOp_cancelled env s x op err h
  refine ⟨he, hw, ?_, ?_, ?_, ?_⟩
  · rw [hw, appended_self]; rfl
  · rw [hw, appended_self]; rfl
  · rw [hw]
  · simp [Session.GetCookies, h]

/-- Witness for C1: LoadExtension on the cancelled session. -/
theorem cancelled_sync_op_fails_fast_witness :
    cancelledSession.ctx.Err = some "context canceled" ∧
    ((SyncOp.LoadExtension "/ext").run healthyEnv cancelledSession emptyWorld).1.2
      = some "context canceled" ∧
    ((SyncOp.LoadExtension "/ext").run healthyEnv cancelledSession emptyWorld).2
      = emptyWorld :=
  ⟨rfl,
    (cancelled_sync_op_fails_fast healthyEnv cancelledSession emptyWorld
      (SyncOp.LoadExtension "/ext") "context canceled" rfl).1,
    (cancelled_sync_op_fails_fast healthyEnv cancelledSession emptyWorld
      (SyncOp.LoadExtension "/ext") "context canceled" rfl).2.1⟩

/-- Claim C3. When the context is not cancelled at entry, each of the nine
synchronous operations invokes the helper exactly once (one helper call is
added to the log, nothing is written and no listener is registered by the
operation itself), with the command name and the expected response event name
paired as the specification lists them, and returns the helper's error
unchanged, so it returns nil exactly when the helper does; GetCookies also
returns the helper's event unchanged. -/
theorem live_sync_op_calls_helper_once (env : Env F P) (s : Session) (x : World F P)
    (op : SyncOp P) (h : s.ctx.Err = none) :
    ∃ m : Event F P,
      m.Name = (SyncOp.specNames op).1 ∧
      (op.run env s x).2.store.trace
        = x.store.trace ++ [Effect.sync m (SyncOp.specNames op).2] ∧
      helperCalls (appended x.store.trace (op.run env s x).2.store.trace)
        = [(m, (SyncOp.specNames op).2)] ∧
      (op.run env s x).1.2
        = (env.synchronousEvent x.store.trace s.ctx s.toobject m (SyncOp.specNames op).2).2 ∧
      ((op.run env s x).1.2 = none ↔
        (env.synchronousEvent x.store.trace s.ctx s.toobject m (SyncOp.specNames op).2).2
          = none) ∧
      s.GetCookies env x
        = (env.synchronousEvent x.store.trace s.ctx s.toobject
            { Name := "session.cmd.cookies.get", TargetID := s.id }
            "session.event.cookies.get",
           { x with store := { x.store with trace := x.store.trace ++
              [Effect.sync { Name := "session.cmd.cookies.get", TargetID := s.id }
                "session.event.cookies.get"] } }) := by
  obtain ⟨m, hname, hworld, herr, _, _⟩ := syncOp_live env s x op h
  refine ⟨m, hname, ?_, ?_, herr, ?_, ?_⟩
  · rw [hworld]
  · rw [hworld]
    simp [appended, helperCalls]
  · rw [herr]
  · simp [Session.GetCookies, h, synchronousEvent, EventNameSessionCmdGetCookies,
      EventNameSessionEventGetCookies]

/-- Witness for C3: SetUserAgent on the live session. -/
theorem live_sync_op_calls_helper_once_witness :
    liveSession.ctx.Err = none ∧
    ∃ m : Event Unit Unit,
      m.Name = "session.cmd.set.user.agent" ∧
      ((SyncOp.SetUserAgent "agent" "en").run healthyEnv liveSession emptyWorld).2.store.trace
        = emptyWorld.store.trace ++ [Effect.sync m "session.event.set.user.agent"] := by
  refine ⟨rfl, ?_⟩
  obtain ⟨m, h1, h2, _⟩ := live_sync_op_calls_helper_once healthyEnv liveSession emptyWorld
    (SyncOp.SetUserAgent "agent" "en") rfl
  exact ⟨m, h1, h2⟩

/-- Claim C2, evaluated on the code. OnBeforeRequest on the cancelled session
returns the cancellation error and writes nothing, but the call of `s.On` comes
before the context check: the registry, empty before the call, holds one
listener for the request event afterwards. -/
theorem OnBeforeRequest_cancelled_still_registers :
    (cancelledSession.OnBeforeRequest healthyEnv () cancelAll emptyWorld).1
      = some "context canceled" ∧
    written (cancelledSession.OnBeforeRequest healthyEnv () cancelAll emptyWorld).2.store.trace
      = [] ∧
    emptyWorld.listeners.length = 0 ∧
    (cancelledSession.OnBeforeRequest healthyEnv () cancelAll emptyWorld).2.listeners.length
      = 1 ∧
    (cancelledSession.OnBeforeRequest healthyEnv () cancelAll emptyWorld).2.listeners.map
      Prod.fst = ["session.event.web.request.on.before.request"] ∧
    (cancelledSession.OnBeforeRequest healthyEnv () cancelAll emptyWorld).2.store.trace
      = [Effect.on "session.event.web.request.on.before.request"] := by
  rw [OnBeforeRequest_cancelled healthyEnv cancelledSession () cancelAll emptyWorld
    "context canceled" rfl]
  simp [emptyWorld, written]

/-- Claim C4. The listener that OnBeforeRequest registers, delivered any
inbound event `i` in any store, calls `fn` exactly once (on `i`) and then
attempts exactly one write, of a reply whose callback_id is that of `i`, whose
name is the callback event name, whose target_id is the session's identifier,
whose Cancel points to the `cancel` result of `fn i` and whose RedirectURL is
the `redirectUrl` result of `fn i`. -/
theorem listener_calls_fn_then_writes_reply (env : Env F P) (s : Session) (filter : F)
    (fn : Event F P → Bool × String × Bool) (x : World F P) :
    ∃ l : Listener F P,
      (s.OnBeforeRequest env filter fn x).2.listeners
        = x.listeners ++ [("session.event.web.request.on.before.request", l)] ∧
      ∀ (i : Event F P) (m : Store F P), ∃ reply : Event F P,
        (l i m).2.trace = m.trace ++ [Effect.fn i, Effect.write reply] ∧
        fnArgs (appended m.trace (l i m).2.trace) = [i] ∧
        written (appended m.trace (l i m).2.trace) = [reply] ∧
        reply.CallbackID = i.CallbackID ∧
        reply.Name = "session.event.web.request.on.before.request.callback" ∧
        reply.TargetID = s.id ∧
        reply.Cancel = some (fn i).1 ∧
        reply.RedirectURL = (fn i).2.1 := by
  refine ⟨s.onBeforeRequestListener env fn x.store.vars.length,
    OnBeforeRequest_listeners env s filter fn x, ?_⟩
  intro i m
  refine ⟨{ CallbackID := i.CallbackID,
            Name := "session.event.web.request.on.before.request.callback",
            TargetID := s.id, Cancel := some (fn i).1, RedirectURL := (fn i).2.1 },
    ?_, ?_, ?_, rfl, rfl, rfl, rfl, rfl⟩
  · rw [onBeforeRequestListener_eq]
  · rw [onBeforeRequestListener_eq]
    simp [appended, fnArgs]
  · rw [onBeforeRequestListener_eq]
    simp [appended, written]

/-- Claim C5, evaluated on the code. With a live context and a writer that
fails on the outbound command with `broken pipe`, OnBeforeRequest attempts
that write and returns nil: the write error is dropped. -/
theorem OnBeforeRequest_drops_write_error :
    liveSession.ctx.Err = none ∧
    written (liveSession.OnBeforeRequest brokenPipeEnv () cancelAll emptyWorld).2.store.trace
      = [{ Name := "session.cmd.web.request.on.before.request", TargetID := "1",
           Filter := some () }] ∧
    brokenPipeEnv.write [Effect.on "session.event.web.request.on.before.request"]
      { Name := "session.cmd.web.request.on.before.request", TargetID := "1",
        Filter := some () } = some "broken pipe" ∧
    (liveSession.OnBeforeRequest brokenPipeEnv () cancelAll emptyWorld).1 = none := by
  rw [OnBeforeRequest_live brokenPipeEnv liveSession () cancelAll emptyWorld rfl]
  simp [emptyWorld, written, liveSession, brokenPipeEnv]

/-- Claim C7. The listener that OnBeforeRequest registers returns to the
dispatcher exactly the `deleteListener` result of `fn i`, for every inbound
event, every store and every behaviour of the writer (so whether the reply
write succeeds or fails). -/
theorem listener_returns_deleteListener (env : Env F P) (s : Session) (filter : F)
    (fn : Event F P → Bool × String × Bool) (x : World F P) :
    ∃ l : Listener F P,
      (s.OnBeforeRequest env filter fn x).2.listeners
        = x.listeners ++ [("session.event.web.request.on.before.request", l)] ∧
      ∀ (i : Event F P) (m : Store F P), (l i m).1 = (fn i).2.2 := by
  refine ⟨s.onBeforeRequestListener env fn x.store.vars.length,
    OnBeforeRequest_listeners env s filter fn x, ?_⟩
  intro i m
  rw [onBeforeRequestListener_eq]

/-- Claim C10. With a live context, OnBeforeRequest registers exactly one
listener, under the request event name, and afterwards attempts exactly one
write, of the command with the command name, target_id equal to the session's
identifier and Filter pointing to the given filter; in the log the
registration comes first and the write second. -/
theorem OnBeforeRequest_registers_then_writes (env : Env F P) (s : Session) (filter : F)
    (fn : Event F P → Bool × String × Bool) (x : World F P) (h : s.ctx.Err = none) :
    ∃ (l : Listener F P) (cmd : Event F P),
      (s.OnBeforeRequest env filter fn x).2.listeners
        = x.listeners ++ [("session.event.web.request.on.before.request", l)] ∧
      (s.OnBeforeRequest env filter fn x).2.store.trace
        = x.store.trace ++
          [Effect.on "session.event.web.request.on.before.request", Effect.write cmd] ∧
      cmd.Name = "session.cmd.web.request.on.before.request" ∧
      cmd.TargetID = s.id ∧
      cmd.Filter = some filter := by
  refine ⟨s.onBeforeRequestListener env fn x.store.vars.length,
    { Name := "session.cmd.web.request.on.before.request", TargetID := s.id,
      Filter := some filter }, ?_, ?_, rfl, rfl, rfl⟩
  · rw [OnBeforeRequest_live env s filter fn x h]
  · rw [OnBeforeRequest_live env s filter fn x h]

/-- Witness for C10: OnBeforeRequest on the live session in the empty world. -/
theorem OnBeforeRequest_registers_then_writes_witness :
    liveSession.ctx.Err = none ∧
    ∃ (l : Listener Unit Unit) (cmd : Event Unit Unit),
      (liveSession.OnBeforeRequest healthyEnv () cancelAll emptyWorld).2.listeners
        = emptyWorld.listeners ++ [("session.event.web.request.on.before.request", l)] ∧
      (liveSession.OnBeforeRequest healthyEnv () cancelAll emptyWorld).2.store.trace
        = emptyWorld.store.trace ++
          [Effect.on "session.event.web.request.on.before.request", Effect.write cmd] ∧
      cmd.Name = "session.cmd.web.request.on.before.request" ∧
      cmd.TargetID = liveSession.id ∧
      cmd.Filter = some () :=
  ⟨rfl, OnBeforeRequest_registers_then_writes healthyEnv liveSession () cancelAll
    emptyWorld rfl⟩

/-- Claim C6. One `newSession` call draws exactly one identifier from the
generator (the generator afterwards is the generator after a single `new`),
and that one value is both the id handed to `newObject` and the field
`Session.ID`, so `Session.ID` equals the object's identifier.  For a generator
whose successive results are pairwise distinct, a session created by a later
call has a different ID, and the IDs of any number of successively created
sessions are pairwise distinct. -/
theorem newSession_single_identifier (ctx : Context) (i : identifier)
    (ctxs : List Context) (hgen : Function.Injective i.gen) :
    (newSession ctx i).1.ID = i.new.1 ∧
    (newSession ctx i).2 = i.new.2 ∧
    (newSession ctx i).1.toobject = newObject ctx (newSession ctx i).1.ID ∧
    (newSession ctx i).1.id = (newSession ctx i).1.ID ∧
    (∀ ctx2 : Context,
      (newSession ctx2 (newSession ctx i).2).1.ID ≠ (newSession ctx i).1.ID) ∧
    ((newSessions ctxs i).1.map Session.ID).Nodup := by
  refine ⟨rfl, rfl, rfl, rfl, ?_, ?_⟩
  · intro ctx2 heq
    rw [(newSession_generator ctx2 _).2, (newSession_generator ctx i).1,
      (newSession_generator ctx i).2] at heq
    have := hgen heq
    simp at this
  · rw [newSessions_ids]
    exact (List.nodup_range' i.n ctxs.length).map hgen

/-- Witness for C6: three sessions created from the unary generator. -/
theorem newSession_single_identifier_witness :
    Function.Injective unaryIdentifier.gen ∧
    (newSession ⟨none⟩ unaryIdentifier).1.ID = "a" ∧
    (newSession ⟨none⟩ unaryIdentifier).1.id = "a" ∧
    ((newSessions [⟨none⟩, ⟨none⟩, ⟨none⟩] unaryIdentifier).1.map Session.ID).Nodup :=
  ⟨unaryIdentifier_injective,
    (newSession_single_identifier ⟨none⟩ unaryIdentifier [⟨none⟩, ⟨none⟩, ⟨none⟩]
      unaryIdentifier_injective).1,
    (newSession_single_identifier ⟨none⟩ unaryIdentifier [⟨none⟩, ⟨none⟩, ⟨none⟩]
      unaryIdentifier_injective).2.2.2.1.trans
      (newSession_single_identifier ⟨none⟩ unaryIdentifier [⟨none⟩, ⟨none⟩, ⟨none⟩]
        unaryIdentifier_injective).1,
    (newSession_single_identifier ⟨none⟩ unaryIdentifier [⟨none⟩, ⟨none⟩, ⟨none⟩]
      unaryIdentifier_injective).2.2.2.2.2⟩

/-- The reply write's outcome reaches nothing the subscriber receives: for any
two behaviours of the collaborators, OnBeforeRequest returns the same error,
and the two registered listeners, delivered the same event in the same store,
hand `fn` the same arguments, append the same interactions to the log and
return the same value. -/
theorem reply_write_outcome_unobservable (env1 env2 : Env F P) (s : Session) (filter : F)
    (fn : Event F P → Bool × String × Bool) (x : World F P) (i : Event F P)
    (m : Store F P) :
    (s.OnBeforeRequest env1 filter fn x).1 = (s.OnBeforeRequest env2 filter fn x).1 ∧
    (s.OnBeforeRequest env1 filter fn x).2.store
      = (s.OnBeforeRequest env2 filter fn x).2.store ∧
    (s.onBeforeRequestListener env1 fn x.store.vars.length i m).1
      = (s.onBeforeRequestListener env2 fn x.store.vars.length i m).1 ∧
    (s.onBeforeRequestListener env1 fn x.store.vars.length i m).2.trace
      = (s.onBeforeRequestListener env2 fn x.store.vars.length i m).2.trace := by
  simp only [onBeforeRequestListener_eq]
  cases h : s.ctx.Err with
  | none => simp [OnBeforeRequest_live _ s filter fn x h]
  | some err => simp [OnBeforeRequest_cancelled _ s filter fn x err h]

/-- Claim C8, evaluated on the code. Two runs on the live session that differ
only in the writer: in one the reply write fails with `broken pipe`, in the
other it succeeds.  OnBeforeRequest has returned nil in both before the event
is delivered; the listener hands `fn` the same argument, logs the same
interactions and returns the same value in both.  The only trace of the
failure is the cell of the captured variable `err`, which nothing reads after
OnBeforeRequest has returned. -/
theorem reply_write_failure_is_silent :
    (liveSession.OnBeforeRequest replyFailsEnv () cancelAll emptyWorld).1 = none ∧
    (liveSession.OnBeforeRequest healthyEnv () cancelAll emptyWorld).1 = none ∧
    (liveSession.OnBeforeRequest replyFailsEnv () cancelAll emptyWorld).2.store
      = (liveSession.OnBeforeRequest healthyEnv () cancelAll emptyWorld).2.store ∧
    (liveSession.OnBeforeRequest replyFailsEnv () cancelAll emptyWorld).2.listeners
      = [("session.event.web.request.on.before.request",
          liveSession.onBeforeRequestListener replyFailsEnv cancelAll 0)] ∧
    (liveSession.OnBeforeRequest healthyEnv () cancelAll emptyWorld).2.listeners
      = [("session.event.web.request.on.before.request",
          liveSession.onBeforeRequestListener healthyEnv cancelAll 0)] ∧
    replyFailsEnv.write
        ((liveSession.OnBeforeRequest replyFailsEnv () cancelAll emptyWorld).2.store.trace
          ++ [Effect.fn requestEvent])
        { CallbackID := "7", Name := "session.event.web.request.on.before.request.callback",
          TargetID := "1", Cancel := some true, RedirectURL := "" }
      = some "broken pipe" ∧
    healthyEnv.write
        ((liveSession.OnBeforeRequest healthyEnv () cancelAll emptyWorld).2.store.trace
          ++ [Effect.fn requestEvent])
        { CallbackID := "7", Name := "session.event.web.request.on.before.request.callback",
          TargetID := "1", Cancel := some true, RedirectURL := "" }
      = none ∧
    (liveSession.onBeforeRequestListener replyFailsEnv cancelAll 0 requestEvent
        (liveSession.OnBeforeRequest replyFailsEnv () cancelAll emptyWorld).2.store).1
      = (liveSession.onBeforeRequestListener healthyEnv cancelAll 0 requestEvent
        (liveSession.OnBeforeRequest healthyEnv () cancelAll emptyWorld).2.store).1 ∧
    (liveSession.onBeforeRequestListener replyFailsEnv cancelAll 0 requestEvent
        (liveSession.OnBeforeRequest replyFailsEnv () cancelAll emptyWorld).2.store).2.trace
      = (liveSession.onBeforeRequestListener healthyEnv cancelAll 0 requestEvent
        (liveSession.OnBeforeRequest healthyEnv () cancelAll emptyWorld).2.store).2.trace ∧
    fnArgs (liveSession.onBeforeRequestListener replyFailsEnv cancelAll 0 requestEvent
        (liveSession.OnBeforeRequest replyFailsEnv () cancelAll emptyWorld).2.store).2.trace
      = [requestEvent] ∧
    (liveSession.onBeforeRequestListener replyFailsEnv cancelAll 0 requestEvent
        (liveSession.OnBeforeRequest replyFailsEnv () cancelAll emptyWorld).2.store).2.vars
      = [some "broken pipe"] ∧
    (liveSession.onBeforeRequestListener healthyEnv cancelAll 0 requestEvent
        (liveSession.OnBeforeRequest healthyEnv () cancelAll emptyWorld).2.store).2.vars
      = [none] := by
  simp only [onBeforeRequestListener_eq,
    OnBeforeRequest_live replyFailsEnv liveSession () cancelAll emptyWorld rfl,
    OnBeforeRequest_live healthyEnv liveSession () cancelAll emptyWorld rfl]
  simp [emptyWorld, liveSession, replyFailsEnv, healthyEnv, cancelAll, requestEvent, fnArgs]

/-- Claim C9 as stated fails: the command that FromPartition hands to the
helper on the live session (identifier `1`) has an empty target_id. -/
theorem FromPartition_message_without_target :
    ∃ m ∈ outbound
        ((SyncOp.FromPartition "persist:a").run healthyEnv liveSession emptyWorld).2.store.trace,
      m.TargetID = "" ∧ m.SessionID = "1" ∧ liveSession.id = "1" ∧ m.TargetID ≠ liveSession.id := by
  refine ⟨{ Name := "session.cmd.from.partition", SessionID := "1",
            Partition := "persist:a" }, ?_, rfl, rfl, rfl, ?_⟩
  · simp [SyncOp.run, Session.FromPartition, liveSession, synchronousEvent, emptyWorld,
      outbound, Effect.outboundMessage, EventNameSessionCmdFromPartition]
  · show ("" : String) ≠ "1"
    decide

/-- Claim C9, amended. Every outbound message built by a Session operation
other than FromPartition (the command of each of the other eight synchronous
operations, the command written by OnBeforeRequest, the callback reply written
by its listener) has target_id equal to the session's identifier; the command
of FromPartition carries the session's identifier in SessionID and has an
empty target_id.  With a live context each synchronous operation does build a
message. -/
theorem outbound_messages_carry_session_id (env : Env F P) (s : Session) (x : World F P) :
    (∀ (op : SyncOp P) (m : Event F P),
      m ∈ outbound (appended x.store.trace (op.run env s x).2.store.trace) →
        (op.isFromPartition = false → m.TargetID = s.id) ∧
        (op.isFromPartition = true → m.SessionID = s.id ∧ m.TargetID = "")) ∧
    (∀ (filter : F) (fn : Event F P → Bool × String × Bool) (m : Event F P),
      m ∈ outbound (appended x.store.trace (s.OnBeforeRequest env filter fn x).2.store.trace) →
        m.TargetID = s.id) ∧
    (∀ (filter : F) (fn : Event F P → Bool × String × Bool), ∃ l : Listener F P,
      (s.OnBeforeRequest env filter fn x).2.listeners
        = x.listeners ++ [("session.event.web.request.on.before.request", l)] ∧
      ∀ (i : Event F P) (st : Store F P) (m : Event F P),
        m ∈ outbound (appended st.trace (l i st).2.trace) → m.TargetID = s.id) ∧
    (s.ctx.Err = none → ∀ op : SyncOp P,
      (outbound (appended x.store.trace (op.run env s x).2.store.trace)).length = 1) := by
  refine ⟨?_, ?_, ?_, ?_⟩
  · intro op m hm
    cases h : s.ctx.Err with
    | some err =>
      rw [(syncOp_cancelled env s x op err h).2, appended_self] at hm
      simp [outbound] at hm
    | none =>
      obtain ⟨m0, _, hworld, _, h1, h2⟩ := syncOp_live env s x op h
      rw [hworld] at hm
      simp only [appended_append, outbound_sync, List.mem_singleton] at hm
      subst hm
      exact ⟨h1, h2⟩
  · intro filter fn m hm
    cases h : s.ctx.Err with
    | some err =>
      rw [OnBeforeRequest_cancelled env s filter fn x err h] at hm
      simp [appended, outbound, Effect.outboundMessage] at hm
    | none =>
      rw [OnBeforeRequest_live env s filter fn x h] at hm
      simp [appended, outbound, Effect.outboundMessage] at hm
      subst hm
      rfl
  · intro filter fn
    refine ⟨s.onBeforeRequestListener env fn x.store.vars.length,
      OnBeforeRequest_listeners env s filter fn x, ?_⟩
    intro i st m hm
    rw [onBeforeRequestListener_eq] at hm
    simp [appended, outbound, Effect.outboundMessage] at hm
    subst hm
    rfl
  · intro h op
    obtain ⟨m0, _, hworld, _, _, _⟩ := syncOp_live env s x op h
    rw [hworld]
    simp [appended_append, outbound_sync]

end Theorems

end Astilectron
